import Mathlib

/-
Verification development for the Chart Fusion Engine of the Dfuse backend
(src/backend/app.py).  The Python functions `_agg`, `_apply_filters`,
`_same_dim_diff_measures`, `_same_measure_diff_dims`, `_is_measure_histogram`,
`_is_dimension_count`, `_clean_dataframe_for_json` and the `/fuse` endpoint are
shallowly embedded below.  Pandas DataFrames become lists of association-list
rows over an explicit cell-value type; Python dict lookups become association
lists; every `raise` site becomes a constructor of an explicit error type.
-/

namespace Dfuse

/-- Cell values of a tabular dataset.  Python/pandas floats are modelled as
rationals plus explicit non-finite markers (`nan`, `inf`, `ninf`); `null`
stands for Python `None` / a missing entry. -/
inductive Val where
  | null
  | num (q : ℚ)
  | inf
  | ninf
  | nan
  | str (s : String)
deriving DecidableEq, Repr

/-- A value pandas treats as missing (skipped by `skipna` aggregation and
dropped by `dropna`): `None` or `NaN`.  Infinities are NOT missing. -/
def Val.isMissing : Val → Bool
  | .null => true
  | .nan => true
  | _ => false

/-- A non-finite float (`NaN`, `inf`, `-inf`) — exactly the values
`_clean_dataframe_for_json` replaces by `None`. -/
def Val.isNonFinite : Val → Bool
  | .nan => true
  | .inf => true
  | .ninf => true
  | _ => false

/-- One row of a table: an association list from column name to cell value
(the shape of one element of pandas `to_dict(orient="records")`). -/
def Row : Type := List (String × Val)

instance : DecidableEq Row := by unfold Row; infer_instance
instance : Repr Row := by unfold Row; infer_instance

/-- Reading a cell of a row by column name (`row[col]` on a record). -/
def rowGet (r : Row) (c : String) : Val :=
  match r.find? (fun p => p.1 == c) with
  | some p => p.2
  | none => .null

/-- A dataset: the entry of the global `DATASETS` store, i.e. a pandas
DataFrame with named columns. -/
structure DF where
  cols : List String
  rows : List Row
deriving DecidableEq, Repr

/-- Extended addition on cell values, following pandas float arithmetic:
`inf + (-inf) = NaN`, infinities absorb finite values.  Strings are not
numerically aggregable; they fall into the defensive `nan` default, which no
verified claim exercises. -/
def addV : Val → Val → Val
  | .num a, .num b => .num (a + b)
  | .num _, .inf => .inf
  | .inf, .num _ => .inf
  | .inf, .inf => .inf
  | .num _, .ninf => .ninf
  | .ninf, .num _ => .ninf
  | .ninf, .ninf => .ninf
  | .inf, .ninf => .nan
  | .ninf, .inf => .nan
  | _, _ => .nan

/-- pandas `sum` with the default `skipna=True`: missing values are skipped
and the sum of an all-missing list is `0`. -/
def sumV (vs : List Val) : Val :=
  (vs.filter (fun v => !v.isMissing)).foldl addV (.num 0)

/-- Division of an aggregate by a (positive) count, used by `mean`. -/
def divCount : Val → Nat → Val
  | .num q, n => .num (q / (n : ℚ))
  | .inf, _ => .inf
  | .ninf, _ => .ninf
  | _, _ => .nan

/-- pandas `mean` with `skipna=True`: arithmetic mean of the present values,
`NaN` when every value is missing. -/
def meanV (vs : List Val) : Val :=
  let p := vs.filter (fun v => !v.isMissing)
  if p.isEmpty then .nan else divCount (p.foldl addV (.num 0)) p.length

/-- Numeric comparison used by `min`/`max`; the string/NaN cases are a
defensive default never exercised by a verified claim. -/
def leV : Val → Val → Bool
  | .ninf, _ => true
  | _, .ninf => false
  | _, .inf => true
  | .inf, _ => false
  | .num a, .num b => decide (a ≤ b)
  | _, _ => true

/-- pandas `min` with `skipna=True` (`NaN` on an all-missing list). -/
def minV (vs : List Val) : Val :=
  match vs.filter (fun v => !v.isMissing) with
  | [] => .nan
  | x :: xs => xs.foldl (fun a b => if leV a b then a else b) x

/-- pandas `max` with `skipna=True` (`NaN` on an all-missing list). -/
def maxV (vs : List Val) : Val :=
  match vs.filter (fun v => !v.isMissing) with
  | [] => .nan
  | x :: xs => xs.foldl (fun a b => if leV b a then a else b) x

/-- Applying a pandas aggregation-function name to the values of one group
(one column).  `count` counts the non-missing values. -/
def applyAgg (name : String) (vs : List Val) : Val :=
  if name = "sum" then sumV vs
  else if name = "mean" then meanV vs
  else if name = "min" then minV vs
  else if name = "max" then maxV vs
  else if name = "count" then .num (((vs.filter (fun v => !v.isMissing)).length : ℚ))
  else .nan

/-- The aggregation-function names the embedded pandas fragment accepts; an
unknown name makes pandas raise, modelled by `Err.badAggName`. -/
def pandasAggNames : List String := ["sum", "mean", "min", "max", "count"]

/-- The group key of a row for a list of group-by columns. -/
def keyOf (dims : List String) (r : Row) : List Val :=
  dims.map (rowGet r)

/-- pandas `groupby` drops rows whose key contains a missing value
(`dropna=True`, the default). -/
def keyOK (k : List Val) : Bool :=
  k.all (fun v => !v.isMissing)

/-- The rows that survive the `groupby` key-dropna. -/
def validRows (df : DF) (dims : List String) : List Row :=
  df.rows.filter (fun r => keyOK (keyOf dims r))

/-- The distinct group keys.  pandas additionally sorts the keys
(`sort=True`); we keep the order produced by `List.dedup`, a modelling choice
no verified property depends on. -/
def groupKeys (df : DF) (dims : List String) : List (List Val) :=
  ((validRows df dims).map (keyOf dims)).dedup

/-- The rows of one group. -/
def groupRows (df : DF) (dims : List String) (k : List Val) : List Row :=
  (validRows df dims).filter (fun r => decide (keyOf dims r = k))

/-- `df.groupby(dims).size().reset_index(name=name)`: one row per group with
the group key columns and a row-count column. -/
def groupSize (df : DF) (dims : List String) (name : String) : List Row :=
  (groupKeys df dims).map (fun k =>
    dims.zip k ++ [(name, Val.num ((groupRows df dims k).length : ℚ))])

/-- `df.groupby(dims)[measures].agg(pandasAgg).reset_index()`: one row per
group, aggregating each measure column independently. -/
def groupAgg (df : DF) (dims measures : List String) (pandasAgg : String) : List Row :=
  (groupKeys df dims).map (fun k =>
    dims.zip k ++ measures.map (fun m =>
      (m, applyAgg pandasAgg ((groupRows df dims k).map (fun r => rowGet r m)))))

/-- The errors the fusion path can surface.  Each constructor corresponds to
one `raise` site (or one unhandled Python exception) in `app.py`:
`notFound` = 404 "One or both charts not found";
`crossDataset` = 400 "Charts must come from the same dataset …";
`datasetKeyError` = the unhandled `KeyError` from `DATASETS[ds_id]`;
`aggColNotFound` = 400 "Column not found: …" raised by `_agg`;
`aggNeedsMeasure` = 400 "At least one measure is required …" raised by `_agg`;
`badAggName` = pandas raising on an unknown aggregation-function name;
`caseCDimNotFound` / `caseCMeasureNotFound` = the two 400s of the semantic
merge case; `columnsKeyError` = an unhandled `KeyError` from a raw column
access (`df.groupby`, `df[[…]]`); `noCommonDimension` = 400 "Fusion failed:
no common dimension found"; `unsupported` = the final 400 "Fusion not
allowed …". -/
inductive Err where
  | notFound
  | crossDataset
  | datasetKeyError (ds : String)
  | aggColNotFound (c : String)
  | aggNeedsMeasure
  | badAggName (a : String)
  | caseCDimNotFound (c : String)
  | caseCMeasureNotFound (c : String)
  | columnsKeyError
  | noCommonDimension
  | unsupported
deriving DecidableEq, Repr

/-- Decidable equality of results, so that witnesses can be checked by
evaluation. -/
instance {ε α : Type} [DecidableEq ε] [DecidableEq α] : DecidableEq (Except ε α) :=
  fun x y =>
    match x, y with
    | .error e1, .error e2 =>
      if h : e1 = e2 then .isTrue (by rw [h]) else .isFalse (fun hh => h (Except.error.inj hh))
    | .ok a1, .ok a2 =>
      if h : a1 = a2 then .isTrue (by rw [h]) else .isFalse (fun hh => h (Except.ok.inj hh))
    | .error _, .ok _ => .isFalse (fun hh => Except.noConfusion hh)
    | .ok _, .error _ => .isFalse (fun hh => Except.noConfusion hh)

/-- The frontend-name → pandas-name translation table of `_agg`
(`agg_mapping.get(agg, agg)`): only `"avg"` is renamed, to `"mean"`. -/
def aggMapping (agg : String) : String :=
  if agg = "avg" then "mean" else agg

/-- Shallow embedding of `_agg(df, dimensions, measures, agg)` (app.py
lines 707-757): the aggregation primitive.  The `count` branch validates only
the group-by columns and ignores `measures`; every other aggregation requires
at least one measure and validates all named columns. -/
def aggDF (df : DF) (dimensions measures : List String) (agg : String) :
    Except Err (List Row) :=
  if agg = "count" then
    match dimensions.find? (fun c => !df.cols.contains c) with
    | some c => .error (.aggColNotFound c)
    | none =>
      if dimensions.isEmpty then
        .ok [[("count", Val.num ((df.rows.length : ℚ)))]]
      else
        .ok (groupSize df dimensions "count")
  else
    if measures.isEmpty then .error .aggNeedsMeasure
    else
      match (dimensions ++ measures).find? (fun c => !df.cols.contains c) with
      | some c => .error (.aggColNotFound c)
      | none =>
        if !pandasAggNames.contains (aggMapping agg) then
          .error (.badAggName (aggMapping agg))
        else if dimensions.isEmpty then
          .ok [measures.map (fun m =>
            (m, applyAgg (aggMapping agg) (df.rows.map (fun r => rowGet r m))))]
        else
          .ok (groupAgg df dimensions measures (aggMapping agg))

/-- `_clean_dataframe_for_json` on one cell: `NaN`, `inf` and `-inf` are
replaced by `None` (app.py lines 681-705). -/
def cleanVal (v : Val) : Val :=
  match v with
  | .nan => .null
  | .inf => .null
  | .ninf => .null
  | v => v

/-- `_clean_dataframe_for_json` followed by `to_dict(orient="records")`. -/
def cleanRows (rows : List Row) : List Row :=
  rows.map (fun r => r.map (fun p => (p.1, cleanVal p.2)))

/-- True when no cell of the table is a non-finite float. -/
def tableIsClean (rows : List Row) : Bool :=
  rows.all (fun r => r.all (fun p => !p.2.isNonFinite))

/-- The `strategy` descriptor attached to a fused chart. -/
structure Strategy where
  type : String
  suggestion : String
deriving DecidableEq, Repr

/-- A Chart Record: one entry of the global `CHARTS` registry.  Records
created by `POST /charts` carry the keys `originalMeasure` and `filters`
(possibly with value `None`); records created by `/fuse` lack both keys.
`originalMeasure` is therefore `Option (Option String)`: `none` = key absent,
`some none` = key present with Python value `None`, `some (some s)` = key
present with a string value.  Likewise `filters`.  `strategy` is present only
on fused records. -/
structure Chart where
  chart_id : String
  dataset_id : String
  dimensions : List String
  measures : List String
  agg : String
  title : String
  table : List Row
  originalMeasure : Option (Option String)
  filters : Option (List (String × List String))
  strategy : Option Strategy
deriving DecidableEq, Repr

/-- `_is_measure_histogram(chart)` (app.py lines 827-843): a legacy histogram
(no dimensions, one measure that is not the literal `"count"`), or a binned
histogram (one dimension `"bin"`, one measure `"count"`). -/
def isMeasureHistogram (c : Chart) : Bool :=
  (c.dimensions.length == 0 && c.measures.length == 1 && c.measures.headD "" != "count")
  || (c.dimensions.length == 1 && c.dimensions.headD "" == "bin"
      && c.measures.length == 1 && c.measures.headD "" == "count")

/-- `_is_dimension_count(chart)` (app.py lines 846-852): exactly one
dimension and either no measures or exactly the measure `"count"`. -/
def isDimensionCount (c : Chart) : Bool :=
  c.dimensions.length == 1
  && (c.measures.length == 0 || (c.measures.length == 1 && c.measures.headD "" == "count"))

/-- `set(a) == set(b)` on lists of strings. -/
def eqAsSets (a b : List String) : Bool :=
  a.all (fun x => b.contains x) && b.all (fun x => a.contains x)

/-- `_same_dim_diff_measures(spec1, spec2)` (app.py lines 798-806): equal
dimension lists (ordered equality), differing measure sets, non-empty
dimensions. -/
def sameDimDiffMeasures (c1 c2 : Chart) : Bool :=
  decide (c1.dimensions = c2.dimensions)
  && !eqAsSets c1.measures c2.measures
  && c1.dimensions.length > 0

/-- `set(spec1["measures"]).intersection(set(spec2["measures"]))` as a
deduplicated list (one entry per element of the set intersection). -/
def interMeasures (c1 c2 : Chart) : List String :=
  c1.measures.dedup.filter (fun m => c2.measures.contains m)

/-- `_same_measure_diff_dims(spec1, spec2)` (app.py lines 809-824): excluded
when either chart is a measure histogram; otherwise exactly one common
measure, differing dimension lists, at least one side with dimensions. -/
def sameMeasureDiffDims (c1 c2 : Chart) : Bool :=
  if isMeasureHistogram c1 || isMeasureHistogram c2 then false
  else
    (interMeasures c1 c2).length == 1
    && decide (c1.dimensions ≠ c2.dimensions)
    && (c1.dimensions.length > 0 || c2.dimensions.length > 0)

/-- `_pick_agg(*charts)`: first truthy (non-empty) `agg` among the two
charts, else `"sum"` (app.py lines 1450-1455). -/
def pickAgg (c1 c2 : Chart) : String :=
  if c1.agg ≠ "" then c1.agg
  else if c2.agg ≠ "" then c2.agg
  else "sum"

/-- `sorted(list(set(m1) | set(m2)))`: the sorted union of two measure
lists, one entry per distinct name.  Python compares strings
lexicographically by code point, which is the order of the underlying
character lists (`String.le_iff_toList_le` identifies it with `≤` on
`String`; comparing `.data` keeps the definition kernel-computable). -/
def sortedUnion (m1 m2 : List String) : List String :=
  List.insertionSort (fun a b => a.data ≤ b.data) ((m1 ++ m2).dedup)

instance : IsTotal String (fun a b => a.data ≤ b.data) :=
  ⟨fun a b => le_total a.data b.data⟩

instance : IsTrans String (fun a b => a.data ≤ b.data) :=
  ⟨fun _ _ _ hab hbc => le_trans hab hbc⟩

/-- The intermediate `fused_table` of the endpoint: either still a DataFrame
(cleaned before externalization) or already a list of records (the stacked
sub-case of Case B, stored as-is). -/
inductive FTable where
  | fromDF (rows : List Row)
  | records (rows : List Row)
deriving DecidableEq, Repr

/-- The local variables a matched fusion case assigns before the shared
output assembly (`dims_out`, `measures_out`, `agg`, `title`, `strategy`,
`fused_table`). -/
structure FusedParts where
  dims_out : List String
  measures_out : List String
  agg : String
  title : String
  strategy : Strategy
  table : FTable
deriving DecidableEq, Repr

def strategyA : Strategy :=
  { type := "same-dimension-different-measures",
    suggestion := "grouped-bar | stacked-bar | dual-axis-line" }

def strategyBStacked : Strategy :=
  { type := "same-measure-different-dimensions-stacked",
    suggestion := "stacked-bar | bubble-chart" }

def strategyBLong : Strategy :=
  { type := "same-measure-different-dimensions",
    suggestion := "multi-series line/bar | heatmap-ready (if granular joint exists)" }

def strategyC : Strategy :=
  { type := "histogram-dimension-semantic-merge",
    suggestion := "bar | line | grouped-bar" }

def strategyD : Strategy :=
  { type := "measure-vs-measure", suggestion := "scatter | dual-histogram" }

def strategyE : Strategy :=
  { type := "dimension-vs-dimension", suggestion := "heatmap | mosaic | grouped-bar" }

/-- Case A (app.py lines 1461-1473): same dimensions, different measures. -/
def caseA (df : DF) (c1 c2 : Chart) : Except Err FusedParts :=
  (aggDF df c1.dimensions (sortedUnion c1.measures c2.measures) (pickAgg c1 c2)).map
    (fun rows =>
      { dims_out := c1.dimensions,
        measures_out := sortedUnion c1.measures c2.measures,
        agg := pickAgg c1 c2,
        title := "Combined: "
                   ++ String.intercalate ", " (sortedUnion c1.measures c2.measures)
                   ++ " by " ++ String.intercalate ", " c1.dimensions,
        strategy := strategyA, table := .fromDF rows })

/-- Python `str(value)` for the `DimensionValue` labels of Case B's long
format.  The rendering of numbers is approximated; no verified claim depends
on these label strings. -/
def pyStr : Val → String
  | .null => "None"
  | .num q => toString q
  | .inf => "inf"
  | .ninf => "-inf"
  | .nan => "nan"
  | .str s => s

/-- `flatten_keys(row, dims)` of Case B's fallback branch. -/
def flattenKeys (r : Row) (dims : List String) : String :=
  if dims.isEmpty then "(total)"
  else String.intercalate " | " (dims.map (fun d => pyStr (rowGet r d)))

/-- `df.groupby([dim1, dim2])[measure].agg(agg).reset_index()` of Case B's
stacked branch (app.py line 1487).  Note the aggregation name is passed to
pandas RAW, without the `avg`→`mean` translation of `_agg`. -/
def caseBStacked (df : DF) (d1 d2 m agg : String) : Except Err (List Row) :=
  if !df.cols.contains d1 || !df.cols.contains d2 || !df.cols.contains m then
    .error .columnsKeyError
  else if !pandasAggNames.contains agg then .error (.badAggName agg)
  else
    .ok ((groupKeys df [d1, d2]).map (fun k =>
      [d1, d2].zip k ++
        [(m, applyAgg agg ((groupRows df [d1, d2] k).map (fun r => rowGet r m)))]))

/-- Case B's fallback branch (app.py lines 1496-1518): aggregate each chart
separately, tag with `DimensionType`/`DimensionValue`, concatenate, rename
the measure column to `Value`.  The two aggregations run in sequence, so the
first failing one raises.  The output `dims_out` is Python's
`list({*dims1, *dims2})`, whose set iteration order is unspecified; we use
first-occurrence order, on which no verified property depends. -/
def caseBFallback (df : DF) (c1 c2 : Chart) (common agg : String) :
    Except Err FusedParts :=
  match aggDF df c1.dimensions [common] agg with
  | .error e => .error e
  | .ok t1 =>
    match aggDF df c2.dimensions [common] agg with
    | .error e => .error e
    | .ok t2 =>
      .ok { dims_out := (c1.dimensions ++ c2.dimensions).dedup,
            measures_out := [common], agg := agg,
            title := "Comparison: " ++ common ++ " across different dimensions",
            strategy := strategyBLong,
            table := .fromDF (
              t1.map (fun r =>
                [("DimensionType",
                    Val.str (if c1.dimensions.isEmpty then "(none)"
                             else String.intercalate "," c1.dimensions)),
                 ("DimensionValue", Val.str (flattenKeys r c1.dimensions)),
                 ("Value", rowGet r common)])
              ++ t2.map (fun r =>
                [("DimensionType",
                    Val.str (if c2.dimensions.isEmpty then "(none)"
                             else String.intercalate "," c2.dimensions)),
                 ("DimensionValue", Val.str (flattenKeys r c2.dimensions)),
                 ("Value", rowGet r common)])) }

/-- Case B (app.py lines 1475-1518): one shared measure, different
dimensions.  `dim1`/`dim2` are the first dimensions when present; the
stacked branch runs only when both are truthy (present and non-empty). -/
def caseB (df : DF) (c1 c2 : Chart) : Except Err FusedParts :=
  match c1.dimensions.head?, c2.dimensions.head? with
  | some d1, some d2 =>
    if d1 = "" || d2 = "" then
      caseBFallback df c1 c2 ((interMeasures c1 c2).headD "") (pickAgg c1 c2)
    else
      (caseBStacked df d1 d2 ((interMeasures c1 c2).headD "") (pickAgg c1 c2)).map
        (fun rows =>
          { dims_out := [d1, d2],
            measures_out := [(interMeasures c1 c2).headD ""],
            agg := pickAgg c1 c2,
            title := "Stacked Bar: " ++ (interMeasures c1 c2).headD ""
                       ++ " by " ++ d1 ++ " vs " ++ d2,
            strategy := strategyBStacked, table := .records rows })
  | _, _ => caseBFallback df c1 c2 ((interMeasures c1 c2).headD "") (pickAgg c1 c2)

/-- The semantic measure chosen by Case C from the `measure_chart`
(app.py lines 1529-1535): the truthy `originalMeasure` when key-present and
non-empty, else the first (synthetic) measure. -/
def caseCmeasure (mc : Chart) : String :=
  match mc.originalMeasure with
  | some (some s) => if s ≠ "" then s else mc.measures.headD ""
  | _ => mc.measures.headD ""

/-- Body of Case C once `measure_chart` and `dimension_chart` are chosen
(app.py lines 1526-1560): the semantic measure and the dimension-chart's
first dimension are validated against the dataset before aggregating. -/
def caseCwith (df : DF) (mc dc : Chart) : Except Err FusedParts :=
  if !df.cols.contains (dc.dimensions.headD "") then
    .error (.caseCDimNotFound (dc.dimensions.headD ""))
  else if !df.cols.contains (caseCmeasure mc) then
    .error (.caseCMeasureNotFound (caseCmeasure mc))
  else
    (aggDF df [dc.dimensions.headD ""] [caseCmeasure mc] (pickAgg mc dc)).map
      (fun rows =>
        { dims_out := [dc.dimensions.headD ""],
          measures_out := [caseCmeasure mc],
          agg := pickAgg mc dc,
          title := caseCmeasure mc ++ " by " ++ dc.dimensions.headD "",
          strategy := strategyC, table := .fromDF rows })

/-- Case C (app.py lines 1520-1560): `measure_chart = c1 if
_is_measure_histogram(c1) else c2`, `dimension_chart = c2 if
_is_dimension_count(c2) else c1`. -/
def caseC (df : DF) (c1 c2 : Chart) : Except Err FusedParts :=
  caseCwith df (if isMeasureHistogram c1 then c1 else c2)
               (if isDimensionCount c2 then c2 else c1)

/-- `chart.get("originalMeasure", chart["measures"][0])` of Case D: returns
the stored value even when it is `None`; the first measure is used only when
the KEY is absent.  The result is an optional column name (`none` = Python
`None`). -/
def pyGetOrig (c : Chart) : Option String :=
  match c.originalMeasure with
  | none => some (c.measures.headD "")
  | some v => v

/-- Case D (app.py lines 1562-1572): histogram vs histogram.
`df[[m1, m2]].dropna()`: the raw row-level pair of columns, with rows
containing a missing value in either column dropped.  A `None` column name
(or an absent column) makes the selection raise `KeyError`. -/
def caseD (df : DF) (c1 c2 : Chart) : Except Err FusedParts :=
  match pyGetOrig c1, pyGetOrig c2 with
  | some m1, some m2 =>
    if !df.cols.contains m1 || !df.cols.contains m2 then .error .columnsKeyError
    else
      .ok { dims_out := [], measures_out := [m1, m2], agg := pickAgg c1 c2,
            title := m1 ++ " vs " ++ m2, strategy := strategyD,
            table := .fromDF
              ((df.rows.map (fun r => [(m1, rowGet r m1), (m2, rowGet r m2)])).filter
                (fun r => r.all (fun p => !p.2.isMissing))) }
  | _, _ => .error .columnsKeyError

/-- Case E (app.py lines 1574-1581): dimension count vs dimension count; a
frequency table over the two first dimensions. -/
def caseE (df : DF) (c1 c2 : Chart) : Except Err FusedParts :=
  if !df.cols.contains (c1.dimensions.headD "")
     || !df.cols.contains (c2.dimensions.headD "") then .error .columnsKeyError
  else
    .ok { dims_out := [c1.dimensions.headD "", c2.dimensions.headD ""],
          measures_out := ["Count"], agg := pickAgg c1 c2,
          title := c1.dimensions.headD "" ++ " vs " ++ c2.dimensions.headD ""
                     ++ " (frequency)",
          strategy := strategyE,
          table := .fromDF
            (groupSize df [c1.dimensions.headD "", c2.dimensions.headD ""] "Count") }

/-- The guard of the permissive fallback (app.py lines 1584-1585): the
dimension sets intersect and the measure sets' union has at least two
elements. -/
def caseFGuard (c1 c2 : Chart) : Bool :=
  (c1.dimensions.dedup.filter (fun d => c2.dimensions.contains d)).length ≥ 1
  && ((c1.measures ++ c2.measures).dedup).length ≥ 2

/-- The permissive fallback case (app.py lines 1583-1599): the common
dimensions reordered by `c1`'s dimension order, narrowed to the first one
(`dims_use = [common_dims[0]] if common_dims else []`, then the
`no common dimension found` 400 when `dims_use` is empty); sorted union of
the measures; the Case A strategy descriptor is reused verbatim. -/
def caseF (df : DF) (c1 c2 : Chart) : Except Err FusedParts :=
  match (c1.dimensions.filter (fun d => c2.dimensions.contains d)).head? with
  | none => .error .noCommonDimension
  | some d =>
    (aggDF df [d] (sortedUnion c1.measures c2.measures) (pickAgg c1 c2)).map
      (fun rows =>
        { dims_out := [d],
          measures_out := sortedUnion c1.measures c2.measures,
          agg := pickAgg c1 c2,
          title := "Combined: "
                     ++ String.intercalate ", " (sortedUnion c1.measures c2.measures)
                     ++ " by " ++ String.intercalate ", " [d],
          strategy := strategyA, table := .fromDF rows })

/-- The case dispatch of `/fuse` (app.py lines 1461-1602): the first
matching case wins; no case matched is the final 400. -/
def fuseBody (df : DF) (c1 c2 : Chart) : Except Err FusedParts :=
  if sameDimDiffMeasures c1 c2 then caseA df c1 c2
  else if sameMeasureDiffDims c1 c2 then caseB df c1 c2
  else if (isMeasureHistogram c1 && isDimensionCount c2)
          || (isMeasureHistogram c2 && isDimensionCount c1) then caseC df c1 c2
  else if isMeasureHistogram c1 && isMeasureHistogram c2 then caseD df c1 c2
  else if isDimensionCount c1 && isDimensionCount c2 then caseE df c1 c2
  else if caseFGuard c1 c2 then caseF df c1 c2
  else .error .unsupported

/-- The output assembly (app.py lines 1604-1627): a DataFrame-shaped table is
passed through `_clean_dataframe_for_json` and converted to records; a table
that is already a records list (Case B stacked) is stored as-is.  The new
record carries neither an `originalMeasure` nor a `filters` key. -/
def mkPayload (newId dsId : String) (p : FusedParts) : Chart :=
  { chart_id := newId, dataset_id := dsId,
    dimensions := p.dims_out, measures := p.measures_out,
    agg := p.agg, title := p.title,
    table := match p.table with
             | .records rows => rows
             | .fromDF rows => cleanRows rows,
    originalMeasure := none, filters := none, strategy := some p.strategy }

/-- First-match lookup in an association list (the embedding of a Python
dict read). -/
def lookupA {α : Type} : List (String × α) → String → Option α
  | [], _ => none
  | p :: l, k => if p.1 = k then some p.2 else lookupA l k

/-- The in-memory chart registry `CHARTS`. -/
abbrev Registry := List (String × Chart)

/-- The in-memory dataset store `DATASETS`. -/
abbrev Datasets := List (String × DF)

/-- Shallow embedding of the `/fuse` endpoint (app.py lines 1422-1629).
`newId` stands for the freshly generated `uuid4`.  On success the new record
is also registered (the single write `CHARTS[chart_id] = fused_payload`); an
error reaches the caller before that write, leaving the registry as it was. -/
def fuse (CHARTS : Registry) (DATASETS : Datasets)
    (newId chart1_id chart2_id : String) : Except Err (Chart × Registry) :=
  match lookupA CHARTS chart1_id, lookupA CHARTS chart2_id with
  | some c1, some c2 =>
    if c1.dataset_id ≠ c2.dataset_id then .error .crossDataset
    else
      match lookupA DATASETS c1.dataset_id with
      | none => .error (.datasetKeyError c1.dataset_id)
      | some df =>
        match fuseBody df c1 c2 with
        | .error e => .error e
        | .ok parts =>
          let newRec := mkPayload newId c1.dataset_id parts
          .ok (newRec, CHARTS ++ [(newId, newRec)])
  | _, _ => .error .notFound

/-- The endpoint as a state transformer on the registry: the observable
result together with the registry after the call (unchanged when an
exception propagates). -/
def fuseEndpoint (CHARTS : Registry) (DATASETS : Datasets)
    (newId chart1_id chart2_id : String) : Except Err Chart × Registry :=
  match fuse CHARTS DATASETS newId chart1_id chart2_id with
  | .ok (r, CH) => (.ok r, CH)
  | .error e => (.error e, CHARTS)

/-! ### Example data used by witnesses and counterexamples -/

/-- A chart record as created by `POST /charts`: the `originalMeasure` and
`filters` keys are always present (`originalMeasure` possibly `None`). -/
def mkChart (id ds : String) (dims meas : List String) (agg : String)
    (om : Option (Option String)) : Chart :=
  { chart_id := id, dataset_id := ds, dimensions := dims, measures := meas,
    agg := agg, title := "", table := [], originalMeasure := om,
    filters := some [], strategy := none }

def dfEx : DF :=
  { cols := ["State", "Revenue", "Population"],
    rows := [
      [("State", .str "CA"), ("Revenue", .num 10), ("Population", .num 100)],
      [("State", .str "NY"), ("Revenue", .num 5), ("Population", .num 50)],
      [("State", .str "CA"), ("Revenue", .num 3), ("Population", .num 30)]] }

def chRev : Chart := mkChart "c1" "ds" ["State"] ["Revenue"] "sum" (some none)

def chPop : Chart := mkChart "c2" "ds" ["State"] ["Population"] "sum" (some none)

def chPopOther : Chart := mkChart "c2" "other" ["State"] ["Population"] "sum" (some none)

/-- Binned histogram over `Age` (new format, `originalMeasure` set). -/
def chBinHist : Chart := mkChart "h" "ds" ["bin"] ["count"] "sum" (some (some "Age"))

/-- Dimension-count chart whose single dimension happens to be `"bin"`. -/
def chBinCount : Chart := mkChart "d" "ds" ["bin"] [] "" (some none)

/-- A dataset that really has `bin` and `count` columns, so the Case A
aggregation of the C2 counterexample succeeds. -/
def dfBin : DF :=
  { cols := ["bin", "count", "State", "Age"],
    rows := [[("bin", .str "b1"), ("count", .num 3), ("State", .str "CA"), ("Age", .num 10)]] }

/-- Legacy histogram of `Revenue` whose `originalMeasure` key is present with
value `None` (exactly what `POST /charts` stores when the field is unset). -/
def chLegacy1 : Chart := mkChart "x" "ds" [] ["Revenue"] "sum" (some none)

def chLegacy2 : Chart := mkChart "y" "ds" [] ["Profit"] "sum" (some none)

def dfRP : DF :=
  { cols := ["Revenue", "Profit"],
    rows := [[("Revenue", .num 1), ("Profit", .num 2)]] }

/-- Legacy histogram of `Population` with `originalMeasure` set. -/
def chHistPop : Chart := mkChart "h" "ds" [] ["PopBuckets"] "sum" (some (some "Population"))

/-- Plain dimension count over `State`. -/
def chStateCount : Chart := mkChart "d" "ds" ["State"] [] "" (some none)

/-- A dataset with an infinite `Revenue` cell, for the Case B cleaning bug. -/
def dfInf : DF :=
  { cols := ["Region", "Product", "Revenue"],
    rows := [[("Region", .str "N"), ("Product", .str "P"), ("Revenue", .inf)]] }

def chRegionRev : Chart := mkChart "a" "ds" ["Region"] ["Revenue"] "sum" (some none)

def chProductRev : Chart := mkChart "b" "ds" ["Product"] ["Revenue"] "" (some none)


/-! ### Error classification helpers -/

/-- The errors `_agg` can raise: a missing column, the missing-measure 400,
or pandas rejecting the aggregation-function name. -/
def isAggErr : Err → Bool
  | .aggColNotFound _ => true
  | .aggNeedsMeasure => true
  | .badAggName _ => true
  | _ => false

/-- The errors the semantic-merge case can raise: its own two
column-validation 400s, or an `_agg` error. -/
def isCaseCErr : Err → Bool
  | .caseCDimNotFound _ => true
  | .caseCMeasureNotFound _ => true
  | e => isAggErr e

/-- Whether a result is a success, decidably (used by witnesses). -/
def isOkE {ε α : Type} : Except ε α → Bool
  | .ok _ => true
  | .error _ => false

/-- Replacing the `filters` field of a chart record, leaving every other
field unchanged (used to state that fusion ignores `filters`). -/
def setFilters (c : Chart) (f : Option (List (String × List String))) : Chart :=
  { c with filters := f }

/-! ### Helper lemmas -/

lemma exceptMap_eq_error {α β : Type} {x : Except Err α} {f : α → β} {e : Err} :
    x.map f = .error e ↔ x = .error e := by
  cases x <;> simp [Except.map]

lemma exceptMap_eq_ok {α β : Type} {x : Except Err α} {f : α → β} {b : β} :
    x.map f = .ok b ↔ ∃ a, x = .ok a ∧ b = f a := by
  cases x <;> simp [Except.map, eq_comm]

/-- Every error of `_agg` is an `_agg` error. -/
lemma aggDF_error {df : DF} {dims ms : List String} {agg : String} {e : Err}
    (h : aggDF df dims ms agg = .error e) : isAggErr e = true := by
  unfold aggDF at h
  split at h
  · split at h
    · simp only [Except.error.injEq] at h
      subst h
      rfl
    · split at h <;> simp_all
  · split at h
    · simp only [Except.error.injEq] at h
      subst h
      rfl
    · split at h
      · simp only [Except.error.injEq] at h
        subst h
        rfl
      · split at h
        · simp only [Except.error.injEq] at h
          subst h
          rfl
        · split at h <;> simp_all

lemma aggDF_not_noCommon {df : DF} {dims ms : List String} {agg : String} :
    aggDF df dims ms agg ≠ .error .noCommonDimension := by
  intro h
  simpa [isAggErr] using aggDF_error h

lemma caseA_error {df : DF} {c1 c2 : Chart} {e : Err}
    (h : caseA df c1 c2 = .error e) : isAggErr e = true :=
  aggDF_error (exceptMap_eq_error.mp h)

lemma caseBStacked_error {df : DF} {d1 d2 m agg : String} {e : Err}
    (h : caseBStacked df d1 d2 m agg = .error e) :
    e = .columnsKeyError ∨ ∃ a, e = .badAggName a := by
  unfold caseBStacked at h
  split at h
  · simp_all
  · split at h
    · exact Or.inr ⟨agg, by simp_all⟩
    · simp_all

lemma caseBFallback_error {df : DF} {c1 c2 : Chart} {common agg : String} {e : Err}
    (h : caseBFallback df c1 c2 common agg = .error e) : isAggErr e = true := by
  unfold caseBFallback at h
  split at h
  · next heq =>
    injection h with h2
    rw [h2] at heq
    exact aggDF_error heq
  · split at h
    · next heq =>
      injection h with h2
      rw [h2] at heq
      exact aggDF_error heq
    · simp at h

lemma caseB_not_noCommon {df : DF} {c1 c2 : Chart} :
    caseB df c1 c2 ≠ .error .noCommonDimension := by
  intro h
  unfold caseB at h
  have hfb : ∀ common agg, caseBFallback df c1 c2 common agg ≠ .error .noCommonDimension := by
    intro common agg hf
    simpa [isAggErr] using caseBFallback_error hf
  split at h
  · split at h
    · exact hfb _ _ h
    · rcases caseBStacked_error (exceptMap_eq_error.mp h) with h1 | ⟨a, h1⟩ <;> simp_all
  · exact hfb _ _ h

lemma caseCwith_error {df : DF} {mc dc : Chart} {e : Err}
    (h : caseCwith df mc dc = .error e) : isCaseCErr e = true := by
  unfold caseCwith at h
  split at h
  · simp only [Except.error.injEq] at h
    subst h
    rfl
  · split at h
    · simp only [Except.error.injEq] at h
      subst h
      rfl
    · have := aggDF_error (exceptMap_eq_error.mp h)
      cases e <;> simp_all [isCaseCErr, isAggErr]

lemma caseC_not_noCommon {df : DF} {c1 c2 : Chart} :
    caseC df c1 c2 ≠ .error .noCommonDimension := by
  intro h
  simpa [isCaseCErr, isAggErr] using caseCwith_error h

lemma caseD_error {df : DF} {c1 c2 : Chart} {e : Err}
    (h : caseD df c1 c2 = .error e) : e = .columnsKeyError := by
  unfold caseD at h
  split at h
  · split at h
    · simp_all
    · simp_all
  · simp_all

lemma caseE_error {df : DF} {c1 c2 : Chart} {e : Err}
    (h : caseE df c1 c2 = .error e) : e = .columnsKeyError := by
  unfold caseE at h
  split at h
  · simp_all
  · simp_all

/-- The guard of the fallback case really guarantees a surviving common
dimension after reordering by `c1`'s dimension order. -/
lemma caseFGuard_common_nonempty {c1 c2 : Chart} (hg : caseFGuard c1 c2 = true) :
    c1.dimensions.filter (fun d => c2.dimensions.contains d) ≠ [] := by
  unfold caseFGuard at hg
  simp only [Bool.and_eq_true, decide_eq_true_eq, ge_iff_le] at hg
  have hpos : 0 < (c1.dimensions.dedup.filter (fun d => c2.dimensions.contains d)).length := hg.1
  obtain ⟨d, hd⟩ := List.exists_mem_of_length_pos hpos
  have h1 : d ∈ c1.dimensions := List.mem_dedup.mp (List.mem_of_mem_filter hd)
  have h2 : (fun d => c2.dimensions.contains d) d = true := List.of_mem_filter hd
  exact List.ne_nil_of_mem (List.mem_filter.mpr ⟨h1, h2⟩)

lemma caseF_not_noCommon {df : DF} {c1 c2 : Chart} (hg : caseFGuard c1 c2 = true) :
    caseF df c1 c2 ≠ .error .noCommonDimension := by
  intro h
  unfold caseF at h
  have hne := caseFGuard_common_nonempty hg
  split at h
  · next hh => exact hne (List.head?_eq_none_iff.mp hh)
  · exact aggDF_not_noCommon (exceptMap_eq_error.mp h)

lemma fuseBody_not_noCommon {df : DF} {c1 c2 : Chart} :
    fuseBody df c1 c2 ≠ .error .noCommonDimension := by
  intro h
  unfold fuseBody at h
  split at h
  · simpa [isAggErr] using caseA_error h
  · split at h
    · exact caseB_not_noCommon h
    · split at h
      · exact caseC_not_noCommon h
      · split at h
        · exact absurd (caseD_error h) (by simp)
        · split at h
          · exact absurd (caseE_error h) (by simp)
          · split at h
            · next hg => exact caseF_not_noCommon hg h
            · simp_all

lemma sortedUnion_sorted (a b : List String) :
    List.Sorted (fun x y => x ≤ y) (sortedUnion a b) := by
  have h := List.sorted_insertionSort (fun x y : String => x.data ≤ y.data) ((a ++ b).dedup)
  exact h.imp (fun hab => by rw [String.le_iff_toList_le]; exact hab)

lemma mem_sortedUnion {a b : List String} {m : String} :
    m ∈ sortedUnion a b ↔ m ∈ a ∨ m ∈ b := by
  unfold sortedUnion
  rw [(List.perm_insertionSort _ _).mem_iff]
  simp

lemma lookupA_append_ne {α : Type} (l : List (String × α)) (k q : String) (v : α)
    (h : q ≠ k) : lookupA (l ++ [(k, v)]) q = lookupA l q := by
  induction l with
  | nil => simp [lookupA, Ne.symm h]
  | cons p t ih =>
    by_cases hp : p.1 = q <;> simp [lookupA, hp, ih]

lemma lookupA_append_self {α : Type} (l : List (String × α)) (k : String) (v : α)
    (h : lookupA l k = none) : lookupA (l ++ [(k, v)]) k = some v := by
  induction l with
  | nil => simp [lookupA]
  | cons p t ih =>
    by_cases hp : p.1 = k
    · simp [lookupA, hp] at h
    · simp only [lookupA, hp] at h ⊢
      simp only [List.cons_append, lookupA, hp, if_false]
      exact ih h

/-- Reduction of `fuse` once both charts and the dataset resolve and the
dataset ids agree. -/
lemma fuse_found (newId : String) {CH : Registry} {DS : Datasets} {id1 id2 : String}
    {c1 c2 : Chart} {df : DF}
    (h1 : lookupA CH id1 = some c1) (h2 : lookupA CH id2 = some c2)
    (hds : c1.dataset_id = c2.dataset_id)
    (hdf : lookupA DS c1.dataset_id = some df) :
    fuse CH DS newId id1 id2 =
      match fuseBody df c1 c2 with
      | .error e => .error e
      | .ok parts => .ok (mkPayload newId c1.dataset_id parts,
                          CH ++ [(newId, mkPayload newId c1.dataset_id parts)]) := by
  have hdf2 : lookupA DS c2.dataset_id = some df := hds ▸ hdf
  simp [fuse, h1, h2, hds, hdf2]

/-- On success the new record carries the fresh id and the registry gains
exactly that one entry at the end. -/
lemma fuse_ok_shape {CH : Registry} {DS : Datasets} {newId id1 id2 : String}
    {r : Chart} {CH2 : Registry}
    (h : fuse CH DS newId id1 id2 = .ok (r, CH2)) :
    r.chart_id = newId ∧ CH2 = CH ++ [(newId, r)] := by
  unfold fuse at h
  split at h
  · split at h
    · exact absurd h (by simp)
    · split at h
      · exact absurd h (by simp)
      · split at h
        · exact absurd h (by simp)
        · simp only [Except.ok.injEq, Prod.mk.injEq] at h
          obtain ⟨hr, hch⟩ := h
          subst hr
          subst hch
          exact ⟨rfl, rfl⟩
  · exact absurd h (by simp)

/-- An error of `fuse` passes the registry through untouched. -/
lemma fuseEndpoint_error {CH : Registry} {DS : Datasets} {newId id1 id2 : String}
    {e : Err} (h : fuse CH DS newId id1 id2 = .error e) :
    fuseEndpoint CH DS newId id1 id2 = (.error e, CH) := by
  unfold fuseEndpoint
  rw [h]

/-- C10: the "no common dimension found" branch inside the permissive
fallback case is unreachable: whenever the fallback's guard (non-empty
intersection of the dimension sets) holds, filtering the intersection by
`c1`'s dimension order yields a non-empty list, so `fuse` never surfaces the
`noCommonDimension` error, from any state and for any chart ids. -/
theorem fuse_never_noCommonDimension (CH : Registry) (DS : Datasets)
    (newId id1 id2 : String) :
    fuse CH DS newId id1 id2 ≠ .error .noCommonDimension := by
  intro h
  unfold fuse at h
  split at h
  · split at h
    · simp at h
    · split at h
      · simp at h
      · split at h
        · next e heq =>
          injection h with h2
          rw [h2] at heq
          exact fuseBody_not_noCommon heq
        · simp at h
  · simp at h

/-- C5: whenever both chart ids resolve and the two records carry different
`dataset_id`s, `fuse` raises the cross-dataset-mismatch error — regardless of
the two charts' shapes, before any shape classification — and the registry is
left unchanged (no new record). -/
theorem fuse_cross_dataset_mismatch (CH : Registry) (DS : Datasets)
    (newId id1 id2 : String) (c1 c2 : Chart)
    (h1 : lookupA CH id1 = some c1) (h2 : lookupA CH id2 = some c2)
    (hne : c1.dataset_id ≠ c2.dataset_id) :
    fuse CH DS newId id1 id2 = .error .crossDataset
    ∧ (fuseEndpoint CH DS newId id1 id2).2 = CH := by
  have hf : fuse CH DS newId id1 id2 = .error .crossDataset := by
    unfold fuse
    rw [h1, h2]
    simp [hne]
  exact ⟨hf, by rw [fuseEndpoint_error hf]⟩

/-- Witness for C5: two concrete resolvable charts from datasets `"ds"` and
`"other"` produce the cross-dataset error and leave the registry unchanged. -/
theorem fuse_cross_dataset_mismatch_witness :
    fuse [("c1", chRev), ("c2", chPopOther)] [("ds", dfEx)] "new" "c1" "c2"
      = .error .crossDataset
    ∧ (fuseEndpoint [("c1", chRev), ("c2", chPopOther)] [("ds", dfEx)] "new" "c1" "c2").2
      = [("c1", chRev), ("c2", chPopOther)] :=
  fuse_cross_dataset_mismatch _ _ _ _ _ chRev chPopOther
    (by decide) (by decide) (by decide)

/-- Counterexample for C6: with both charts resolving, matching
`dataset_id = "ds"`, and an empty dataset store, `fuse` surfaces the
unhandled `KeyError` of `DATASETS[ds_id]` — which is not the 404 NotFound
error the claim promises for an unresolvable dataset id. -/
theorem fuse_missing_dataset_not_notFound :
    fuse [("c1", chRev), ("c2", chPop)] [] "new" "c1" "c2"
      = .error (.datasetKeyError "ds")
    ∧ Err.datasetKeyError "ds" ≠ Err.notFound := by
  decide

/-- C6 (amended): an unresolvable chart id yields the 404 NotFound error
immediately; an unresolvable dataset id (with both charts resolving and
matching) yields the unhandled `KeyError` instead of NotFound.  In both
situations no partial computation is performed and the registry is
unchanged. -/
theorem fuse_notFound_and_dataset_keyError (CH : Registry) (DS : Datasets)
    (newId id1 id2 : String) :
    ((lookupA CH id1 = none ∨ lookupA CH id2 = none) →
       fuse CH DS newId id1 id2 = .error .notFound
       ∧ (fuseEndpoint CH DS newId id1 id2).2 = CH)
    ∧ (∀ c1 c2, lookupA CH id1 = some c1 → lookupA CH id2 = some c2 →
        c1.dataset_id = c2.dataset_id → lookupA DS c1.dataset_id = none →
        fuse CH DS newId id1 id2 = .error (.datasetKeyError c1.dataset_id)
        ∧ (fuseEndpoint CH DS newId id1 id2).2 = CH) := by
  constructor
  · intro hmiss
    have hf : fuse CH DS newId id1 id2 = .error .notFound := by
      unfold fuse
      rcases hmiss with hm | hm
      · rw [hm]
      · rw [hm]
        cases hx : lookupA CH id1 <;> simp
    exact ⟨hf, by rw [fuseEndpoint_error hf]⟩
  · intro c1 c2 h1 h2 hds hnone
    have hf : fuse CH DS newId id1 id2 = .error (.datasetKeyError c1.dataset_id) := by
      have hnone2 : lookupA DS c2.dataset_id = none := hds ▸ hnone
      unfold fuse
      rw [h1, h2]
      simp [hds, hnone2]
    exact ⟨hf, by rw [fuseEndpoint_error hf]⟩

/-- Witness for the amended C6: a concrete state with a missing chart id, and
one with a missing dataset. -/
theorem fuse_notFound_and_dataset_keyError_witness :
    (fuse [("c1", chRev)] [("ds", dfEx)] "new" "c1" "nope" = .error .notFound
     ∧ (fuseEndpoint [("c1", chRev)] [("ds", dfEx)] "new" "c1" "nope").2 = [("c1", chRev)])
    ∧ (fuse [("c1", chRev), ("c2", chPop)] [] "new" "c1" "c2"
         = .error (.datasetKeyError "ds")
       ∧ (fuseEndpoint [("c1", chRev), ("c2", chPop)] [] "new" "c1" "c2").2
         = [("c1", chRev), ("c2", chPop)]) := by
  constructor
  · exact (fuse_notFound_and_dataset_keyError [("c1", chRev)] [("ds", dfEx)]
      "new" "c1" "nope").1 (Or.inr (by decide))
  · exact (fuse_notFound_and_dataset_keyError [("c1", chRev), ("c2", chPop)] []
      "new" "c1" "c2").2 chRev chPop (by decide) (by decide) (by decide) (by decide)


lemma fuseBody_caseA (df : DF) {c1 c2 : Chart}
    (hA : sameDimDiffMeasures c1 c2 = true) :
    fuseBody df c1 c2 = caseA df c1 c2 := by
  unfold fuseBody
  rw [hA]
  simp

lemma sameMeasureDiffDims_false_of_hist {c1 c2 : Chart}
    (h : isMeasureHistogram c1 = true ∨ isMeasureHistogram c2 = true) :
    sameMeasureDiffDims c1 c2 = false := by
  unfold sameMeasureDiffDims
  rcases h with h | h <;> simp [h]

lemma fuseBody_caseC (df : DF) {c1 c2 : Chart}
    (hA : sameDimDiffMeasures c1 c2 = false)
    (hB : sameMeasureDiffDims c1 c2 = false)
    (hC : ((isMeasureHistogram c1 && isDimensionCount c2)
           || (isMeasureHistogram c2 && isDimensionCount c1)) = true) :
    fuseBody df c1 c2 = caseC df c1 c2 := by
  unfold fuseBody
  rw [hA, hB, hC]
  simp

lemma caseCwith_ok {df : DF} {mc dc : Chart} {parts : FusedParts}
    (h : caseCwith df mc dc = .ok parts) :
    parts.measures_out = [caseCmeasure mc] ∧ parts.strategy = strategyC := by
  unfold caseCwith at h
  split at h
  · simp at h
  · split at h
    · simp at h
    · obtain ⟨rows, hrows, hp⟩ := exceptMap_eq_ok.mp h
      subst hp
      exact ⟨rfl, rfl⟩

/-- C1: with both charts resolving to the same existing dataset, whenever
`_same_dim_diff_measures` holds (equal non-empty ordered dimensions,
differing measure sets), `fuse` selects Case A: a successful result carries
`dimensions = c1.dimensions`, `measures = sorted(set(c1.measures) ∪
set(c2.measures))` (sorted, one entry per distinct name of either input) and
the Case A strategy; the only possible failures are aggregation errors from
inside the Case A branch. -/
theorem fuse_sameDim_diffMeasures_selects_caseA
    (CH : Registry) (DS : Datasets) (newId id1 id2 : String)
    (c1 c2 : Chart) (df : DF)
    (h1 : lookupA CH id1 = some c1) (h2 : lookupA CH id2 = some c2)
    (hds : c1.dataset_id = c2.dataset_id)
    (hdf : lookupA DS c1.dataset_id = some df)
    (hA : sameDimDiffMeasures c1 c2 = true) :
    (∀ r CH2, fuse CH DS newId id1 id2 = .ok (r, CH2) →
        r.dimensions = c1.dimensions
        ∧ r.measures = sortedUnion c1.measures c2.measures
        ∧ List.Sorted (fun x y => x ≤ y) r.measures
        ∧ (∀ m, m ∈ r.measures ↔ m ∈ c1.measures ∨ m ∈ c2.measures)
        ∧ r.strategy = some strategyA)
    ∧ (∀ e, fuse CH DS newId id1 id2 = .error e → isAggErr e = true) := by
  have hred := fuse_found newId h1 h2 hds hdf
  have hbody : fuseBody df c1 c2 = caseA df c1 c2 := fuseBody_caseA df hA
  constructor
  · intro r CH2 hok
    rw [hred, hbody] at hok
    cases hagg : aggDF df c1.dimensions (sortedUnion c1.measures c2.measures)
        (pickAgg c1 c2) with
    | error e =>
      unfold caseA at hok
      rw [hagg] at hok
      simp [Except.map] at hok
    | ok rows =>
      unfold caseA at hok
      rw [hagg] at hok
      simp only [Except.map, Except.ok.injEq, Prod.mk.injEq] at hok
      obtain ⟨hr, _⟩ := hok
      subst hr
      refine ⟨rfl, rfl, sortedUnion_sorted _ _, fun m => mem_sortedUnion, rfl⟩
  · intro e he
    rw [hred, hbody] at he
    cases hagg : aggDF df c1.dimensions (sortedUnion c1.measures c2.measures)
        (pickAgg c1 c2) with
    | error e0 =>
      unfold caseA at he
      rw [hagg] at he
      simp only [Except.map, Except.error.injEq] at he
      subst he
      exact aggDF_error hagg
    | ok rows =>
      unfold caseA at he
      rw [hagg] at he
      simp [Except.map] at he

/-- Witness for C1: the concrete state of spec scenario 1 produces Case A
output with `dimensions = ["State"]` and sorted-union measures. -/
theorem fuse_sameDim_diffMeasures_selects_caseA_witness :
    ((fuse [("c1", chRev), ("c2", chPop)] [("ds", dfEx)] "new" "c1" "c2").map
        (fun p => (p.1.dimensions, p.1.measures, p.1.strategy)))
      = .ok (["State"], ["Population", "Revenue"], some strategyA) := by
  have h := (fuse_sameDim_diffMeasures_selects_caseA
    [("c1", chRev), ("c2", chPop)] [("ds", dfEx)] "new" "c1" "c2" chRev chPop dfEx
    (by decide) (by decide) (by decide) (by decide) (by decide)).1
  have hok : isOkE (fuse [("c1", chRev), ("c2", chPop)] [("ds", dfEx)] "new" "c1" "c2")
      = true := by decide
  cases hf : fuse [("c1", chRev), ("c2", chPop)] [("ds", dfEx)] "new" "c1" "c2" with
  | error e => rw [hf] at hok; simp [isOkE] at hok
  | ok pr =>
    obtain ⟨r, CH2⟩ := pr
    obtain ⟨hdim, hmeas, _, _, hstrat⟩ := h r CH2 hf
    simp only [Except.map]
    rw [hdim, hmeas, hstrat]
    decide

/-- Counterexample for C2: `chBinHist` is a (binned) measure histogram with
`originalMeasure = "Age"` set, `chBinCount` is a dimension count and not a
histogram — yet `fuse` routes the pair through Case A (which takes priority
over the semantic merge, because the two dimension lists are both `["bin"]`
and the measure sets differ), outputs the synthetic measure `"count"` and
ignores `originalMeasure` entirely. -/
theorem fuse_histogram_dimcount_bypasses_semantic_merge :
    isMeasureHistogram chBinHist = true
    ∧ isDimensionCount chBinCount = true
    ∧ isMeasureHistogram chBinCount = false
    ∧ chBinHist.originalMeasure = some (some "Age")
    ∧ ((fuse [("h", chBinHist), ("d", chBinCount)] [("ds", dfBin)] "new" "h" "d").map
         (fun p => (p.1.measures, p.1.strategy)))
      = .ok (["count"], some strategyA)
    ∧ strategyA ≠ strategyC := by
  decide

/-- C2 (amended): for pairs where exactly one chart is a measure histogram
and the other a dimension count, PROVIDED the pair does not also satisfy the
higher-priority Case A predicate, `fuse` reaches the semantic merge and uses
the histogram's `originalMeasure` as the only output measure whenever it is
set (non-empty); the synthetic `measures[0]` fallback is not consulted.  The
only possible failures are the semantic-merge column validations and
aggregation errors. -/
theorem fuse_histogram_dimcount_semantic_measure
    (CH : Registry) (DS : Datasets) (newId id1 id2 : String)
    (c1 c2 : Chart) (df : DF) (m : String)
    (h1 : lookupA CH id1 = some c1) (h2 : lookupA CH id2 = some c2)
    (hds : c1.dataset_id = c2.dataset_id)
    (hdf : lookupA DS c1.dataset_id = some df)
    (hnotA : sameDimDiffMeasures c1 c2 = false)
    (hexa : (isMeasureHistogram c1 = true ∧ isDimensionCount c2 = true
              ∧ isMeasureHistogram c2 = false)
          ∨ (isMeasureHistogram c2 = true ∧ isDimensionCount c1 = true
              ∧ isMeasureHistogram c1 = false))
    (hm : (if isMeasureHistogram c1 then c1 else c2).originalMeasure = some (some m))
    (hm2 : m ≠ "") :
    (∀ r CH2, fuse CH DS newId id1 id2 = .ok (r, CH2) →
        r.measures = [m] ∧ r.strategy = some strategyC)
    ∧ (∀ e, fuse CH DS newId id1 id2 = .error e → isCaseCErr e = true) := by
  have hB : sameMeasureDiffDims c1 c2 = false := by
    apply sameMeasureDiffDims_false_of_hist
    rcases hexa with ⟨h, _, _⟩ | ⟨h, _, _⟩
    · exact Or.inl h
    · exact Or.inr h
  have hC : ((isMeasureHistogram c1 && isDimensionCount c2)
             || (isMeasureHistogram c2 && isDimensionCount c1)) = true := by
    rcases hexa with ⟨ha, hb, _⟩ | ⟨ha, hb, _⟩ <;> simp [ha, hb]
  have hbody := fuseBody_caseC df hnotA hB hC
  have hmc : caseCmeasure (if isMeasureHistogram c1 then c1 else c2) = m := by
    unfold caseCmeasure
    rw [hm]
    simp [hm2]
  have hred := fuse_found newId h1 h2 hds hdf
  constructor
  · intro r CH2 hok
    rw [hred, hbody] at hok
    cases hcc : caseC df c1 c2 with
    | error e =>
      rw [hcc] at hok
      simp at hok
    | ok parts =>
      rw [hcc] at hok
      simp only [Except.ok.injEq, Prod.mk.injEq] at hok
      obtain ⟨hr, _⟩ := hok
      subst hr
      obtain ⟨hmo, hst⟩ :=
        caseCwith_ok (show caseCwith df (if isMeasureHistogram c1 then c1 else c2)
          (if isDimensionCount c2 then c2 else c1) = .ok parts from hcc)
      constructor
      · show parts.measures_out = [m]
        rw [hmo, hmc]
      · show some parts.strategy = some strategyC
        rw [hst]
  · intro e he
    rw [hred, hbody] at he
    cases hcc : caseC df c1 c2 with
    | error e0 =>
      rw [hcc] at he
      simp only [Except.error.injEq] at he
      subst he
      exact caseCwith_error hcc
    | ok parts =>
      rw [hcc] at he
      simp at he

/-- Witness for the amended C2: spec scenario 3 — a legacy histogram with
`originalMeasure = "Population"` merged with a `State` dimension count uses
`"Population"`, not the synthetic `"PopBuckets"`. -/
theorem fuse_histogram_dimcount_semantic_measure_witness :
    ((fuse [("h", chHistPop), ("d", chStateCount)] [("ds", dfEx)] "new" "h" "d").map
        (fun p => (p.1.measures, p.1.strategy)))
      = .ok (["Population"], some strategyC) := by
  have h := (fuse_histogram_dimcount_semantic_measure
    [("h", chHistPop), ("d", chStateCount)] [("ds", dfEx)] "new" "h" "d"
    chHistPop chStateCount dfEx "Population"
    (by decide) (by decide) (by decide) (by decide) (by decide)
    (Or.inl (by decide)) (by decide) (by decide)).1
  have hok : isOkE (fuse [("h", chHistPop), ("d", chStateCount)] [("ds", dfEx)] "new" "h" "d")
      = true := by decide
  cases hf : fuse [("h", chHistPop), ("d", chStateCount)] [("ds", dfEx)] "new" "h" "d" with
  | error e => rw [hf] at hok; simp [isOkE] at hok
  | ok pr =>
    obtain ⟨r, CH2⟩ := pr
    obtain ⟨hmeas, hstrat⟩ := h r CH2 hf
    simp only [Except.map]
    rw [hmeas, hstrat]


/-- C3 (code bug): two legacy histograms whose `originalMeasure` KEY is
present with value `None` — exactly what `POST /charts` stores when the field
is unset — reach Case D, where `chart.get("originalMeasure",
chart["measures"][0])` returns the stored `None` instead of falling back to
`measures[0]`; the column selection `df[[None, None]]` then raises an
unhandled `KeyError`, even though the fallback columns (`Revenue`, `Profit`)
exist in the dataset with no nulls. -/
theorem fuse_caseD_none_originalMeasure_keyError :
    chLegacy1.originalMeasure = some none
    ∧ chLegacy1.measures = ["Revenue"]
    ∧ isMeasureHistogram chLegacy1 = true
    ∧ isMeasureHistogram chLegacy2 = true
    ∧ pyGetOrig chLegacy1 = none
    ∧ "Revenue" ∈ dfRP.cols
    ∧ "Profit" ∈ dfRP.cols
    ∧ fuse [("x", chLegacy1), ("y", chLegacy2)] [("ds", dfRP)] "new" "x" "y"
        = .error .columnsKeyError := by
  decide

/-- C4 (code bug): in Case B's stacked branch the fused table is converted to
records before the output assembly, so it bypasses
`_clean_dataframe_for_json`: an `Infinity` produced by the aggregation is
stored verbatim in the new chart record's table instead of being replaced by
null. -/
theorem fuse_caseB_stacked_skips_clean :
    ((fuse [("a", chRegionRev), ("b", chProductRev)] [("ds", dfInf)] "new" "a" "b").map
       (fun p => (p.1.table, tableIsClean p.1.table)))
      = .ok ([[("Region", .str "N"), ("Product", .str "P"), ("Revenue", .inf)]], false) := by
  decide

/-- C8: under a fresh generated id, every invocation of the fuse endpoint
either registers exactly one new record — returned to the caller, stored
under the new id at the end of the registry — or fails and leaves the
registry untouched; in both outcomes every previously registered chart
(in particular the two inputs) is still found unchanged under its old id. -/
theorem fuse_registry_atomic (CH : Registry) (DS : Datasets)
    (newId id1 id2 : String) (hfresh : lookupA CH newId = none) :
    (∀ r, (fuseEndpoint CH DS newId id1 id2).1 = .ok r →
        r.chart_id = newId
        ∧ (fuseEndpoint CH DS newId id1 id2).2 = CH ++ [(newId, r)]
        ∧ lookupA (fuseEndpoint CH DS newId id1 id2).2 newId = some r)
    ∧ (∀ e, (fuseEndpoint CH DS newId id1 id2).1 = .error e →
        (fuseEndpoint CH DS newId id1 id2).2 = CH)
    ∧ (∀ id, id ≠ newId →
        lookupA (fuseEndpoint CH DS newId id1 id2).2 id = lookupA CH id) := by
  cases hf : fuse CH DS newId id1 id2 with
  | error e0 =>
    have he := fuseEndpoint_error hf
    rw [he]
    refine ⟨?_, ?_, ?_⟩
    · intro r hr
      simp at hr
    · intro e _
      rfl
    · intro id _
      rfl
  | ok pr =>
    obtain ⟨r0, CH2⟩ := pr
    obtain ⟨hid, hch⟩ := fuse_ok_shape hf
    have he : fuseEndpoint CH DS newId id1 id2 = (.ok r0, CH2) := by
      unfold fuseEndpoint
      rw [hf]
    rw [he]
    refine ⟨?_, ?_, ?_⟩
    · intro r hr
      simp only [Except.ok.injEq] at hr
      subst hr
      refine ⟨hid, hch, ?_⟩
      rw [hch]
      exact lookupA_append_self _ _ _ hfresh
    · intro e he2
      simp at he2
    · intro id hid2
      rw [hch]
      exact lookupA_append_ne _ _ _ _ hid2

/-- Witness for C8: after a successful concrete fusion the first input chart
is still registered unchanged. -/
theorem fuse_registry_atomic_witness :
    lookupA (fuseEndpoint [("c1", chRev), ("c2", chPop)] [("ds", dfEx)] "new" "c1" "c2").2 "c1"
      = some chRev := by
  have h := (fuse_registry_atomic [("c1", chRev), ("c2", chPop)] [("ds", dfEx)]
    "new" "c1" "c2" (by decide)).2.2 "c1" (by decide)
  rw [h]
  decide


lemma isMeasureHistogram_setFilters (c : Chart) (f : Option (List (String × List String))) :
    isMeasureHistogram (setFilters c f) = isMeasureHistogram c := rfl

lemma isDimensionCount_setFilters (c : Chart) (f : Option (List (String × List String))) :
    isDimensionCount (setFilters c f) = isDimensionCount c := rfl

lemma sameDimDiffMeasures_setFilters (c1 c2 : Chart)
    (f1 f2 : Option (List (String × List String))) :
    sameDimDiffMeasures (setFilters c1 f1) (setFilters c2 f2)
      = sameDimDiffMeasures c1 c2 := rfl

lemma sameMeasureDiffDims_setFilters (c1 c2 : Chart)
    (f1 f2 : Option (List (String × List String))) :
    sameMeasureDiffDims (setFilters c1 f1) (setFilters c2 f2)
      = sameMeasureDiffDims c1 c2 := rfl

lemma caseFGuard_setFilters (c1 c2 : Chart)
    (f1 f2 : Option (List (String × List String))) :
    caseFGuard (setFilters c1 f1) (setFilters c2 f2) = caseFGuard c1 c2 := rfl

lemma caseA_setFilters (df : DF) (c1 c2 : Chart)
    (f1 f2 : Option (List (String × List String))) :
    caseA df (setFilters c1 f1) (setFilters c2 f2) = caseA df c1 c2 := rfl

lemma caseB_setFilters (df : DF) (c1 c2 : Chart)
    (f1 f2 : Option (List (String × List String))) :
    caseB df (setFilters c1 f1) (setFilters c2 f2) = caseB df c1 c2 := rfl

lemma caseCwith_setFilters (df : DF) (mc dc : Chart)
    (fm fd : Option (List (String × List String))) :
    caseCwith df (setFilters mc fm) (setFilters dc fd) = caseCwith df mc dc := rfl

lemma caseC_setFilters (df : DF) (c1 c2 : Chart)
    (f1 f2 : Option (List (String × List String))) :
    caseC df (setFilters c1 f1) (setFilters c2 f2) = caseC df c1 c2 := by
  unfold caseC
  rw [isMeasureHistogram_setFilters c1 f1, isDimensionCount_setFilters c2 f2]
  cases hm : isMeasureHistogram c1 <;> cases hd : isDimensionCount c2 <;>
    simp [caseCwith_setFilters]

lemma caseD_setFilters (df : DF) (c1 c2 : Chart)
    (f1 f2 : Option (List (String × List String))) :
    caseD df (setFilters c1 f1) (setFilters c2 f2) = caseD df c1 c2 := rfl

lemma caseE_setFilters (df : DF) (c1 c2 : Chart)
    (f1 f2 : Option (List (String × List String))) :
    caseE df (setFilters c1 f1) (setFilters c2 f2) = caseE df c1 c2 := rfl

lemma caseF_setFilters (df : DF) (c1 c2 : Chart)
    (f1 f2 : Option (List (String × List String))) :
    caseF df (setFilters c1 f1) (setFilters c2 f2) = caseF df c1 c2 := rfl

/-- The case dispatch never consults the `filters` field. -/
lemma fuseBody_setFilters (df : DF) (c1 c2 : Chart)
    (f1 f2 : Option (List (String × List String))) :
    fuseBody df (setFilters c1 f1) (setFilters c2 f2) = fuseBody df c1 c2 := by
  unfold fuseBody
  rw [sameDimDiffMeasures_setFilters c1 c2 f1 f2,
      sameMeasureDiffDims_setFilters c1 c2 f1 f2,
      isMeasureHistogram_setFilters c1 f1, isMeasureHistogram_setFilters c2 f2,
      isDimensionCount_setFilters c1 f1, isDimensionCount_setFilters c2 f2,
      caseFGuard_setFilters c1 c2 f1 f2,
      caseA_setFilters df c1 c2 f1 f2, caseB_setFilters df c1 c2 f1 f2,
      caseC_setFilters df c1 c2 f1 f2, caseD_setFilters df c1 c2 f1 f2,
      caseE_setFilters df c1 c2 f1 f2, caseF_setFilters df c1 c2 f1 f2]

lemma lookupA_map_setFilters (CH : Registry)
    (g : String → Option (List (String × List String))) (k : String) :
    lookupA (CH.map (fun p => (p.1, setFilters p.2 (g p.1)))) k
      = (lookupA CH k).map (fun c => setFilters c (g k)) := by
  induction CH with
  | nil => rfl
  | cons p t ih =>
    by_cases hp : p.1 = k
    · simp [lookupA, hp]
    · simp [lookupA, hp, ih]

/-- C9: `fuse` never reads or applies the `filters` field of its two input
chart records: the case dispatch and every fused table are invariant under
arbitrary replacement of both inputs' `filters` (so charts built from
filtered data are fused over the full shared dataset, as if unfiltered), and
the endpoint's observable result is likewise unchanged when every registered
chart's `filters` is rewritten arbitrarily. -/
theorem fuse_ignores_filters :
    (∀ (df : DF) (c1 c2 : Chart) (f1 f2 : Option (List (String × List String))),
        fuseBody df (setFilters c1 f1) (setFilters c2 f2) = fuseBody df c1 c2)
    ∧ (∀ (CH : Registry) (DS : Datasets) (newId id1 id2 : String)
         (g : String → Option (List (String × List String))),
        (fuse (CH.map (fun p => (p.1, setFilters p.2 (g p.1)))) DS newId id1 id2).map Prod.fst
          = (fuse CH DS newId id1 id2).map Prod.fst) := by
  refine ⟨fuseBody_setFilters, ?_⟩
  intro CH DS newId id1 id2 g
  unfold fuse
  rw [lookupA_map_setFilters CH g id1, lookupA_map_setFilters CH g id2]
  cases hx : lookupA CH id1 <;> cases hy : lookupA CH id2 <;> simp only [Option.map]
  rename_i c1 c2
  by_cases hd : c1.dataset_id = c2.dataset_id
  · rw [if_neg (fun h : (setFilters c1 (g id1)).dataset_id
          ≠ (setFilters c2 (g id2)).dataset_id => h hd),
        if_neg (fun h : c1.dataset_id ≠ c2.dataset_id => h hd)]
    have hproj1 : (setFilters c1 (g id1)).dataset_id = c1.dataset_id := rfl
    rw [hproj1]
    cases hz : lookupA DS c1.dataset_id with
    | none => rfl
    | some df =>
      simp only [fuseBody_setFilters]
      cases hfb : fuseBody df c1 c2 with
      | error e => rfl
      | ok parts => rfl
  · rw [if_pos (show (setFilters c1 (g id1)).dataset_id
          ≠ (setFilters c2 (g id2)).dataset_id from hd),
        if_pos (show c1.dataset_id ≠ c2.dataset_id from hd)]


lemma keyOK_of_mem_groupKeys {df : DF} {dims : List String} {k : List Val}
    (hk : k ∈ groupKeys df dims) : keyOK k = true := by
  unfold groupKeys at hk
  obtain ⟨r, hr, hkr⟩ := List.mem_map.mp (List.mem_dedup.mp hk)
  unfold validRows at hr
  have h2 := List.of_mem_filter hr
  rw [hkr] at h2
  exact h2

/-- For a key that actually occurs, the group of the (dropna-based) groupby
is exactly the set of ALL dataset rows carrying that key: rows with that key
are never silently lost. -/
lemma groupRows_eq_of_mem {df : DF} {dims : List String} {k : List Val}
    (hk : k ∈ groupKeys df dims) :
    groupRows df dims k = df.rows.filter (fun r => decide (keyOf dims r = k)) := by
  have hok := keyOK_of_mem_groupKeys hk
  unfold groupRows validRows
  rw [List.filter_filter]
  apply List.filter_congr
  intro r _
  by_cases hkr : keyOf dims r = k
  · simp [hkr, hok]
  · simp [hkr]

lemma foldl_addV_num (qs : List ℚ) (init : ℚ) :
    (qs.map Val.num).foldl addV (.num init) = .num (qs.foldl (· + ·) init) := by
  induction qs generalizing init with
  | nil => rfl
  | cons q t ih => simp [List.foldl, addV, ih]

/-- C7: the aggregation primitive's `count` branch ignores the value columns
entirely; with a non-empty valid group-by list it returns one row per
distinct group whose `count` column is the number of dataset rows in that
group (the group keys are pairwise distinct); with an empty group-by list it
returns the single row `count = total row count`; any non-`count` aggregation
errors when no value column is given; and the public name `avg` is
translated to `mean`, the arithmetic mean. -/
theorem agg_primitive_contract :
    (∀ (df : DF) (dims ms1 ms2 : List String),
        aggDF df dims ms1 "count" = aggDF df dims ms2 "count")
    ∧ (∀ (df : DF) (ms : List String),
        aggDF df [] ms "count" = .ok [[("count", Val.num ((df.rows.length : ℚ)))]])
    ∧ (∀ (df : DF) (dims ms : List String), dims ≠ [] → (∀ c ∈ dims, c ∈ df.cols) →
        aggDF df dims ms "count"
          = .ok ((groupKeys df dims).map (fun k =>
              dims.zip k ++ [("count",
                Val.num ((df.rows.filter (fun r => decide (keyOf dims r = k))).length : ℚ))]))
        ∧ (groupKeys df dims).Nodup)
    ∧ (∀ (df : DF) (dims : List String) (a : String), a ≠ "count" →
        aggDF df dims [] a = .error .aggNeedsMeasure)
    ∧ aggMapping "avg" = "mean"
    ∧ (∀ (qs : List ℚ), qs ≠ [] →
        applyAgg (aggMapping "avg") (qs.map Val.num) = .num (qs.sum / (qs.length : ℚ))) := by
  refine ⟨fun df dims ms1 ms2 => rfl, fun df ms => rfl, ?_, ?_, rfl, ?_⟩
  · intro df dims ms hne hcols
    have hfind : dims.find? (fun c => !df.cols.contains c) = none := by
      rw [List.find?_eq_none]
      intro x hx
      simp [hcols x hx]
    have hni : dims.isEmpty = false := by
      cases dims with
      | nil => exact absurd rfl hne
      | cons a t => rfl
    constructor
    · unfold aggDF
      rw [if_pos rfl, hfind]
      show (if dims.isEmpty = true then _ else _) = _
      rw [hni]
      simp only [Bool.false_eq_true, if_false]
      unfold groupSize
      apply congrArg
      apply List.map_congr_left
      intro k hk
      rw [groupRows_eq_of_mem hk]
    · exact List.nodup_dedup _
  · intro df dims a ha
    unfold aggDF
    rw [if_neg ha]
    rfl
  · intro qs hne
    show meanV (qs.map Val.num) = _
    have hfil : (qs.map Val.num).filter (fun v => !v.isMissing) = qs.map Val.num := by
      apply List.filter_eq_self.mpr
      intro v hv
      obtain ⟨q, _, rfl⟩ := List.mem_map.mp hv
      rfl
    have hni : (qs.map Val.num).isEmpty = false := by
      cases qs with
      | nil => exact absurd rfl hne
      | cons a t => rfl
    simp only [meanV, hfil, hni, Bool.false_eq_true, if_false]
    rw [foldl_addV_num]
    simp only [divCount, List.length_map]
    rw [List.sum_eq_foldl]

/-- Witness for C7: counting `dfEx` by `State` gives one row per distinct
state with the matching row counts, independently of the value columns. -/
theorem agg_primitive_contract_witness :
    aggDF dfEx ["State"] ["ignored"] "count"
      = .ok [[("State", .str "NY"), ("count", .num 1)],
             [("State", .str "CA"), ("count", .num 2)]] := by
  have h := agg_primitive_contract.2.2.1 dfEx ["State"] ["ignored"]
    (by decide) (by decide)
  rw [h.1]
  decide

end Dfuse
